import Mathlib

/-!
Verification of the annotation scene & history engine of the `snipp` editor
(`src/components/editor/AnnotationCanvas.tsx`).

The embedding follows the source file:
* `CanvasState` models the mutable refs `historyRef` (the log),
  `historyIndexRef`, `isRestoringRef`, and the canvas annotation objects
  (the fabric objects excluding the two fixed layers: the background
  rectangle and the source image, which the source filters out before
  every serialization and removal pass).
* Scene coordinates are JS numbers; all concrete values appearing in the
  engine are exact in binary floating point at the sizes involved, so they
  are embedded as rationals (`ℚ`), with the two transcendental host
  primitives `Math.atan2` and `Math.cos`/`Math.sin`/`Math.PI` taken as
  explicit function parameters.
* Serialization of an annotation object list (`JSON.stringify` of the
  object array) is injective on the object data the engine stores, so a
  history snapshot is embedded as the object list itself.
* The regular-expression match in `parseGradient` either fails or yields
  the five captured groups (angle digits, first color, first percentage
  digits, second color, second percentage digits); that tokenization step
  is embedded as the structured input type `CssInput`.
-/

namespace Snipp

/-- A rectangle in scene coordinates: `{left, top, width, height}` as used
for blur bounds and the temporary drawn rectangle. -/
structure Bounds where
  left : ℚ
  top : ℚ
  width : ℚ
  height : ℚ
  deriving DecidableEq, Repr

/-- The data of the arrow `fabric.Group` assembled at mouse-up: the group
position, the child line endpoints (relative to the group center), and the
triangular head position, size and rotation angle (degrees). -/
structure ArrowGroupModel where
  groupLeft : ℚ
  groupTop : ℚ
  lineX1 : ℚ
  lineY1 : ℚ
  lineX2 : ℚ
  lineY2 : ℚ
  headLeft : ℚ
  headTop : ℚ
  headWidth : ℚ
  headHeight : ℚ
  headAngle : ℚ
  deriving DecidableEq, Repr

/-- An annotation object on the canvas (the fixed background rectangle and
source image layers are excluded from this model, exactly as the source
filters them out of every history pass). `shape` abstracts the plain
Rect/Ellipse/Line/IText objects by an identifier; `blurRegion` carries the
durable metadata `blurRegionData = {originalBounds, blockSize}`;
`arrowGroup` carries the assembled arrow group data. -/
inductive Obj where
  | shape (id : ℕ)
  | blurRegion (originalBounds : Bounds) (blockSize : ℚ)
  | arrowGroup (geom : ArrowGroupModel)
  deriving DecidableEq, Repr

/-- One entry of `historyRef` is the serialized annotation object list;
serialization is embedded as the object list itself. -/
abbrev Snapshot := List Obj

/-- The canvas state visible to the history engine: the annotation objects
(excluding fixed layers), `historyRef.current`, `historyIndexRef.current`
(a JS number that ranges over `[-1, length-1]`, embedded as `ℤ`), and
`isRestoringRef.current`. -/
structure CanvasState where
  objects : List Obj
  history : List Snapshot
  historyIndex : ℤ
  isRestoring : Bool
  deriving DecidableEq, Repr

/-- The constant `maxHistorySize = 50`. -/
def maxHistorySize : ℕ := 50

/-- The forward-truncation step inside `saveToHistory`: if the cursor is
not at the end of the log, `historyRef.current.slice(0, historyIndexRef.current + 1)`. -/
def truncatedHistory (s : CanvasState) : List Snapshot :=
  if s.historyIndex < (s.history.length : ℤ) - 1 then
    s.history.take (s.historyIndex + 1).toNat
  else
    s.history

/-- The function `saveToHistory` (AnnotationCanvas.tsx lines 398-435): no-op while a
restore is in progress; otherwise serialize the annotation objects,
truncate the abandoned redo branch, push the new entry, and either evict
the oldest entry (when the log now exceeds `maxHistorySize`, leaving the
index in place) or advance the index by one. -/
def saveToHistory (s : CanvasState) : CanvasState :=
  if s.isRestoring then s
  else if (truncatedHistory s ++ [s.objects]).length > maxHistorySize then
    { s with history := (truncatedHistory s ++ [s.objects]).drop 1 }
  else
    { s with history := truncatedHistory s ++ [s.objects],
             historyIndex := s.historyIndex + 1 }

/-- The function `restoreFromHistory(index)` (lines 438-465): if the entry exists, set
the guard, replace the annotation objects by the recreated snapshot, set
`historyIndexRef.current = index`, clear the guard. If the entry does not
exist (`historyRef.current[index]` is undefined), return without touching
anything. -/
def restoreFromHistory (i : ℤ) (s : CanvasState) : CanvasState :=
  if 0 ≤ i ∧ i < (s.history.length : ℤ) then
    { s with objects := s.history.getD i.toNat [],
             historyIndex := i,
             isRestoring := false }
  else s

/-- The first phase of `restoreFromHistory`: `isRestoringRef.current = true`
and removal of every annotation object, before any entry is re-added. -/
def restoreBegin (s : CanvasState) : CanvasState :=
  { s with isRestoring := true, objects := [] }

/-- The second phase of `restoreFromHistory`: re-add the snapshot at `i`,
set the index, clear the guard. -/
def restoreFinish (i : ℤ) (s : CanvasState) : CanvasState :=
  { s with objects := s.history.getD i.toNat [],
           historyIndex := i,
           isRestoring := false }

/-- The function `undo()` (lines 1024-1041): if the index is positive, restore the
previous entry; if it is zero, clear the annotation objects directly
(inside its own guard window, which ends cleared) and set the index to
`-1`; otherwise do nothing. -/
def undo (s : CanvasState) : CanvasState :=
  if 0 < s.historyIndex then
    restoreFromHistory (s.historyIndex - 1) s
  else if s.historyIndex = 0 then
    { s with objects := [], historyIndex := -1, isRestoring := false }
  else s

/-- One completed annotation mutation with a fresh distinct result: the
object list becomes `[shape k]` and the mutation is saved to history. -/
def performAction (k : ℕ) (s : CanvasState) : CanvasState :=
  saveToHistory { s with objects := [Obj.shape k] }

/-- A sequence of distinct completed mutations numbered `k, k+1, ...`. -/
def runActions : ℕ → ℕ → CanvasState → CanvasState
  | _, 0, s => s
  | k, n + 1, s => runActions (k + 1) n (performAction k s)

/-- The state at scene start: no annotations, empty log, index `-1`. -/
def initialState : CanvasState :=
  { objects := [], history := [], historyIndex := -1, isRestoring := false }

/-- The crop rectangle computed by `createBlurRegion` (lines 149-159)
against the source image: clamp the translated bounds to the image. -/
structure CropRect where
  left : ℚ
  top : ℚ
  width : ℚ
  height : ℚ
  deriving DecidableEq, Repr

/-- The crop geometry of `createBlurRegion`: translate `bounds` into
source-image coordinates by the image offset (`padding.left`,
`padding.top`) and intersect with the image rectangle. -/
def computeCrop (bounds : Bounds) (offsetLeft offsetTop imgWidth imgHeight : ℚ) :
    CropRect :=
  let cropLeft := max 0 (bounds.left - offsetLeft)
  let cropTop := max 0 (bounds.top - offsetTop)
  let cropRight := min imgWidth (bounds.left + bounds.width - offsetLeft)
  let cropBottom := min imgHeight (bounds.top + bounds.height - offsetTop)
  { left := cropLeft, top := cropTop,
    width := cropRight - cropLeft, height := cropBottom - cropTop }

/-- The function `createBlurRegion` (lines 139-207) at the level of the durable object
state: `null` when the crop has a non-positive dimension (the region does
not overlap the image), otherwise the blur object whose durable metadata
is `{originalBounds: bounds, blockSize}` (the pixel raster is derived and
regenerated from these). -/
def createBlurRegion (bounds : Bounds) (offsetLeft offsetTop imgWidth imgHeight : ℚ)
    (blockSize : ℚ) : Option Obj :=
  let c := computeCrop bounds offsetLeft offsetTop imgWidth imgHeight
  if c.width ≤ 0 ∨ c.height ≤ 0 then none
  else some (Obj.blurRegion bounds blockSize)

/-- The blur branch of `handleMouseUp` (lines 882-920). The temporary
drawn rectangle is the most recently added canvas object (added at
mouse-down, nothing else is added during the gesture), so its removal is
`dropLast`. If either drawn dimension is below 5, discard silently;
otherwise run `createBlurRegion` and, only when it yields an object, add
it and save one history entry. -/
def handleMouseUpBlur (rect : Bounds) (imgWidth imgHeight offsetLeft offsetTop : ℚ)
    (blockSize : ℚ) (s : CanvasState) : CanvasState :=
  if rect.width < 5 ∨ rect.height < 5 then
    { s with objects := s.objects.dropLast }
  else
    match createBlurRegion rect offsetLeft offsetTop imgWidth imgHeight blockSize with
    | none => { s with objects := s.objects.dropLast }
    | some obj => saveToHistory { s with objects := s.objects.dropLast ++ [obj] }

/-- The arrow group assembled by the arrow branch of `handleMouseUp`
(lines 817-879) from the temporary line endpoints `(x1, y1)`-`(x2, y2)`.
The host primitive `Math.atan2` and the constant `Math.PI` are passed as
the parameters `atan2` and `piv`. -/
def finalizeArrowGeom (atan2 : ℚ → ℚ → ℚ) (piv : ℚ) (x1 y1 x2 y2 : ℚ) :
    ArrowGroupModel :=
  let angle := atan2 (y2 - y1) (x2 - x1)
  let headLength : ℚ := 15
  let centerX := (x1 + x2) / 2
  let centerY := (y1 + y2) / 2
  { groupLeft := centerX, groupTop := centerY,
    lineX1 := x1 - centerX, lineY1 := y1 - centerY,
    lineX2 := x2 - centerX, lineY2 := y2 - centerY,
    headLeft := x2 - centerX, headTop := y2 - centerY,
    headWidth := headLength, headHeight := headLength,
    headAngle := angle * 180 / piv + 90 }

/-- The arrow branch of `handleMouseUp` at the state level: remove the
temporary line (the most recently added object), add the assembled group,
and save one history entry when the gesture was a live drawing. -/
def handleMouseUpArrow (atan2 : ℚ → ℚ → ℚ) (piv : ℚ) (x1 y1 x2 y2 : ℚ)
    (wasDrawing : Bool) (s : CanvasState) : CanvasState :=
  let g := Obj.arrowGroup (finalizeArrowGeom atan2 piv x1 y1 x2 y2)
  let s1 := { s with objects := s.objects.dropLast ++ [g] }
  if wasDrawing then saveToHistory s1 else s1

/-- The outcome of the regular-expression match in `parseGradient`
(line 109): either the five captured groups of a two-stop linear gradient
descriptor `linear-gradient(<angle>deg, <color1> <pct1>%, <color2> <pct2>%)`
(the digit groups are non-negative integers), or any other input. -/
inductive CssInput where
  | linearGradient (angle : ℕ) (color1 : String) (pct1 : ℕ) (color2 : String) (pct2 : ℕ)
  | other (raw : String)
  deriving DecidableEq, Repr

/-- The absolute coordinates of a resolved linear gradient. -/
structure GradientCoords (K : Type) where
  x1 : K
  y1 : K
  x2 : K
  y2 : K
  deriving DecidableEq

/-- A resolved two-stop linear gradient: coordinates plus
`colorStops = [{offset, color}, ...]`. -/
structure FabricGradient (K : Type) where
  coords : GradientCoords K
  colorStops : List (K × String)
  deriving DecidableEq

/-- The function `parseGradient` (lines 108-136): `null` when the input does not match
the two-stop linear form; otherwise `angleRad = (angle - 90) * PI / 180`,
the start point `(0.5 - cos*0.5, 0.5 - sin*0.5)` and the end point
`(0.5 + cos*0.5, 0.5 + sin*0.5)` scaled by `(width, height)`, with color
stops at offsets 0 and 1. The captured percentage groups are never read.
The host primitives `Math.cos`, `Math.sin`, `Math.PI` are the parameters
`cosf`, `sinf`, `piv`, over an arbitrary field of scalars. -/
def parseGradient {K : Type} [Field K] (cosf sinf : K → K) (piv : K)
    (cssGradient : CssInput) (width height : K) : Option (FabricGradient K) :=
  match cssGradient with
  | CssInput.other _ => none
  | CssInput.linearGradient angle color1 _ color2 _ =>
    let angleRad := ((angle : K) - 90) * piv / 180
    let x1 := 1 / 2 - cosf angleRad * (1 / 2)
    let y1 := 1 / 2 - sinf angleRad * (1 / 2)
    let x2 := 1 / 2 + cosf angleRad * (1 / 2)
    let y2 := 1 / 2 + sinf angleRad * (1 / 2)
    some { coords := { x1 := x1 * width, y1 := y1 * height,
                       x2 := x2 * width, y2 := y2 * height },
           colorStops := [(0, color1), (1, color2)] }

/-! ## Helper lemmas -/

lemma truncatedHistory_length_le (s : CanvasState) :
    (truncatedHistory s).length ≤ s.history.length := by
  unfold truncatedHistory
  split
  · simp [List.length_take]
  · exact le_refl _

lemma saveToHistory_length_le (s : CanvasState) (h : s.history.length ≤ 50) :
    (saveToHistory s).history.length ≤ 50 := by
  have ht := truncatedHistory_length_le s
  unfold saveToHistory
  split
  · exact h
  · split
    · simp only [List.length_drop, List.length_append, List.length_cons,
        List.length_nil]
      omega
    · rename_i h2
      simp only [maxHistorySize, List.length_append, List.length_cons,
        List.length_nil, gt_iff_lt, not_lt] at h2 ⊢
      omega

lemma runActions_history_length_le (n : ℕ) :
    ∀ (k : ℕ) (s : CanvasState), s.history.length ≤ 50 →
      (runActions k n s).history.length ≤ 50 := by
  induction n with
  | zero => intro k s h; exact h
  | succ n ih =>
      intro k s h
      exact ih (k + 1) (performAction k s) (saveToHistory_length_le _ h)

/-! ## Claims -/

/-- Claim C1: the history log never holds more than 50 entries. Every save
from a state with at most 50 entries leaves at most 50 entries, and every
sequence of completed mutations from the initial state leaves at most 50
entries. When a completed save would push the length past 50 the oldest
entry is evicted and `currentIndex` is not advanced; otherwise
`currentIndex` is advanced by one. After 60 sequential distinct actions
exactly the most recent 50 snapshots remain, with the index at the final
slot. -/
theorem saveToHistory_bounded (s : CanvasState) (hlen : s.history.length ≤ 50) :
    (saveToHistory s).history.length ≤ 50 ∧
    (∀ n : ℕ, (runActions 1 n initialState).history.length ≤ 50) ∧
    (s.isRestoring = false →
      50 < (truncatedHistory s ++ [s.objects]).length →
      (saveToHistory s).historyIndex = s.historyIndex ∧
      (saveToHistory s).history = (truncatedHistory s ++ [s.objects]).drop 1) ∧
    (s.isRestoring = false →
      (truncatedHistory s ++ [s.objects]).length ≤ 50 →
      (saveToHistory s).historyIndex = s.historyIndex + 1 ∧
      (saveToHistory s).history = truncatedHistory s ++ [s.objects]) ∧
    runActions 1 60 initialState =
      { objects := [Obj.shape 60],
        history := (List.range' 11 50).map (fun k => [Obj.shape k]),
        historyIndex := 49, isRestoring := false } := by
  refine ⟨saveToHistory_length_le s hlen,
          fun n => runActions_history_length_le n 1 initialState (by decide),
          ?_, ?_, by set_option maxRecDepth 10000 in decide⟩
  · intro hr hev
    unfold saveToHistory
    rw [if_neg (by simp [hr])]
    rw [if_pos (by simpa [maxHistorySize] using hev)]
    exact ⟨rfl, rfl⟩
  · intro hr hle
    unfold saveToHistory
    rw [if_neg (by simp [hr])]
    rw [if_neg (by simp only [maxHistorySize, gt_iff_lt, not_lt]; exact hle)]
    exact ⟨rfl, rfl⟩

theorem saveToHistory_bounded_witness :
    initialState.history.length ≤ 50 ∧
    (saveToHistory initialState).history.length ≤ 50 :=
  ⟨by decide, (saveToHistory_bounded initialState (by decide)).1⟩

/-- The concrete state of the C2 scenario: four history entries with the
cursor at 1 (two prior undos), and a freshly mutated object set. -/
def midCursorState : CanvasState :=
  { objects := [Obj.shape 9],
    history := [[Obj.shape 0], [Obj.shape 1], [Obj.shape 2], [Obj.shape 3]],
    historyIndex := 1,
    isRestoring := false }

/-- Claim C2: a save performed while the cursor is not at the end of the
log discards every entry after the cursor before appending the new entry,
then advances the cursor. In particular, from 4 entries with the cursor at
1, one new action leaves the log `[entry0, entry1, newEntry]` with the
cursor at 2. -/
theorem saveToHistory_truncates_redo_branch (s : CanvasState)
    (hr : s.isRestoring = false)
    (hlen : s.history.length ≤ 50)
    (hmid : s.historyIndex < (s.history.length : ℤ) - 1) :
    (saveToHistory s).history
        = s.history.take (s.historyIndex + 1).toNat ++ [s.objects] ∧
    (saveToHistory s).historyIndex = s.historyIndex + 1 ∧
    saveToHistory midCursorState =
      { objects := [Obj.shape 9],
        history := [[Obj.shape 0], [Obj.shape 1], [Obj.shape 9]],
        historyIndex := 2,
        isRestoring := false } := by
  have htr : truncatedHistory s = s.history.take (s.historyIndex + 1).toNat := by
    unfold truncatedHistory
    rw [if_pos hmid]
  have hlen2 : (truncatedHistory s ++ [s.objects]).length ≤ 50 := by
    rw [htr]
    simp only [List.length_append, List.length_take, List.length_cons,
      List.length_nil]
    omega
  refine ⟨?_, ?_, by decide⟩
  · unfold saveToHistory
    rw [if_neg (by simp [hr])]
    rw [if_neg (by simp only [maxHistorySize, gt_iff_lt, not_lt]; exact hlen2)]
    rw [htr]
  · unfold saveToHistory
    rw [if_neg (by simp [hr])]
    rw [if_neg (by simp only [maxHistorySize, gt_iff_lt, not_lt]; exact hlen2)]

theorem saveToHistory_truncates_redo_branch_witness :
    midCursorState.isRestoring = false ∧
    midCursorState.history.length ≤ 50 ∧
    midCursorState.historyIndex < (midCursorState.history.length : ℤ) - 1 ∧
    (saveToHistory midCursorState).history
        = midCursorState.history.take (midCursorState.historyIndex + 1).toNat
            ++ [midCursorState.objects] :=
  ⟨rfl, by decide, by decide,
   (saveToHistory_truncates_redo_branch midCursorState rfl (by decide)
      (by decide)).1⟩

/-- Claim C3: `undo` is a three-way case split on the cursor. With the
cursor strictly positive it restores the entry at `cursor - 1` (objects
become that snapshot, the cursor moves back one, the log is untouched);
with the cursor at 0 it clears all annotation objects directly and sets
the cursor to `-1`; with the cursor at `-1` it is a no-op. -/
theorem undo_three_way_split (s : CanvasState)
    (hvalid : s.historyIndex < (s.history.length : ℤ)) :
    (0 < s.historyIndex →
      undo s = { s with objects := s.history.getD (s.historyIndex - 1).toNat [],
                        historyIndex := s.historyIndex - 1,
                        isRestoring := false }) ∧
    (s.historyIndex = 0 →
      undo s = { s with objects := [], historyIndex := -1,
                        isRestoring := false }) ∧
    (s.historyIndex = -1 → undo s = s) := by
  refine ⟨?_, ?_, ?_⟩
  · intro hpos
    unfold undo
    rw [if_pos hpos]
    unfold restoreFromHistory
    rw [if_pos ⟨by omega, by omega⟩]
  · intro h0
    unfold undo
    rw [if_neg (by omega), if_pos h0]
  · intro hneg
    unfold undo
    rw [if_neg (by omega), if_neg (by omega)]

theorem undo_three_way_split_witness :
    (⟨[Obj.shape 2], [[Obj.shape 1], [Obj.shape 2]], 1, false⟩ :
        CanvasState).historyIndex
      < (((⟨[Obj.shape 2], [[Obj.shape 1], [Obj.shape 2]], 1, false⟩ :
        CanvasState)).history.length : ℤ) ∧
    (0 < (⟨[Obj.shape 2], [[Obj.shape 1], [Obj.shape 2]], 1, false⟩ :
        CanvasState).historyIndex →
      undo ⟨[Obj.shape 2], [[Obj.shape 1], [Obj.shape 2]], 1, false⟩
        = { (⟨[Obj.shape 2], [[Obj.shape 1], [Obj.shape 2]], 1, false⟩ :
              CanvasState) with
            objects :=
              (⟨[Obj.shape 2], [[Obj.shape 1], [Obj.shape 2]], 1, false⟩ :
                CanvasState).history.getD
                ((⟨[Obj.shape 2], [[Obj.shape 1], [Obj.shape 2]], 1, false⟩ :
                  CanvasState).historyIndex - 1).toNat [],
            historyIndex :=
              (⟨[Obj.shape 2], [[Obj.shape 1], [Obj.shape 2]], 1, false⟩ :
                CanvasState).historyIndex - 1,
            isRestoring := false }) :=
  ⟨by decide,
   (undo_three_way_split
      ⟨[Obj.shape 2], [[Obj.shape 1], [Obj.shape 2]], 1, false⟩
      (by decide)).1⟩

/-- Claim C4: a save attempted while a restore is in progress is a no-op.
Any state with the in-progress guard set absorbs `saveToHistory` with no
entry appended, no truncation and no index change; the intermediate state
of a restore (after the guard is set and the objects are removed, before
the snapshot is re-added and the guard cleared) has the guard set, so the
save attempted there is the identity; and a valid restore is exactly the
guarded two-phase sequence. -/
theorem save_noop_during_restore (s : CanvasState) (i : ℤ)
    (hi : 0 ≤ i ∧ i < (s.history.length : ℤ)) :
    (∀ t : CanvasState, t.isRestoring = true → saveToHistory t = t) ∧
    (restoreBegin s).isRestoring = true ∧
    saveToHistory (restoreBegin s) = restoreBegin s ∧
    restoreFromHistory i s = restoreFinish i (restoreBegin s) := by
  have hk : ∀ t : CanvasState, t.isRestoring = true → saveToHistory t = t := by
    intro t ht
    unfold saveToHistory
    rw [if_pos ht]
  refine ⟨hk, rfl, hk _ rfl, ?_⟩
  unfold restoreFromHistory restoreFinish restoreBegin
  rw [if_pos hi]

theorem save_noop_during_restore_witness :
    (0 ≤ (0 : ℤ) ∧ (0 : ℤ) <
        (((⟨[Obj.shape 3], [[Obj.shape 3]], 0, false⟩ :
            CanvasState)).history.length : ℤ)) ∧
    saveToHistory
        (restoreBegin ⟨[Obj.shape 3], [[Obj.shape 3]], 0, false⟩)
      = restoreBegin ⟨[Obj.shape 3], [[Obj.shape 3]], 0, false⟩ :=
  ⟨⟨by decide, by decide⟩,
   (save_noop_during_restore ⟨[Obj.shape 3], [[Obj.shape 3]], 0, false⟩ 0
      ⟨by decide, by decide⟩).2.2.1⟩

/-- Claim C5: the blur compositor computes the crop by clamping the
offset-translated bounds to the image rectangle, with the stated max/min
formulas, and the width/height are the differences. In particular bounds
`{left 50, top 50, width 100, height 100}` with offset `{32, 32}` against
an 800 by 600 image crop to `{left 18, top 18, width 100, height 100}`. -/
theorem computeCrop_spec (b : Bounds) (offsetLeft offsetTop imgWidth imgHeight : ℚ) :
    computeCrop b offsetLeft offsetTop imgWidth imgHeight =
      { left := max 0 (b.left - offsetLeft),
        top := max 0 (b.top - offsetTop),
        width := min imgWidth (b.left + b.width - offsetLeft)
                   - max 0 (b.left - offsetLeft),
        height := min imgHeight (b.top + b.height - offsetTop)
                   - max 0 (b.top - offsetTop) } ∧
    computeCrop ⟨50, 50, 100, 100⟩ 32 32 800 600 =
      { left := 18, top := 18, width := 100, height := 100 } :=
  ⟨rfl, by norm_num [computeCrop]⟩

/-- Claim C6: when the computed crop has a non-positive width or height
(the region does not overlap the source image), `createBlurRegion`
produces no object at all, and the blur finalization for that gesture only
removes the temporary rectangle: no blur object is added and no history
entry is pushed. -/
theorem createBlurRegion_no_overlap (b : Bounds)
    (offsetLeft offsetTop imgWidth imgHeight blockSize : ℚ) (s : CanvasState)
    (hno : (computeCrop b offsetLeft offsetTop imgWidth imgHeight).width ≤ 0 ∨
           (computeCrop b offsetLeft offsetTop imgWidth imgHeight).height ≤ 0) :
    createBlurRegion b offsetLeft offsetTop imgWidth imgHeight blockSize = none ∧
    handleMouseUpBlur b imgWidth imgHeight offsetLeft offsetTop blockSize s
      = { s with objects := s.objects.dropLast } := by
  have h1 : createBlurRegion b offsetLeft offsetTop imgWidth imgHeight blockSize
      = none := by
    simp only [createBlurRegion]
    rw [if_pos hno]
  refine ⟨h1, ?_⟩
  simp only [handleMouseUpBlur]
  split
  · rfl
  · rw [h1]

theorem createBlurRegion_no_overlap_witness :
    ((computeCrop ⟨200, 200, 50, 50⟩ 32 32 100 100).width ≤ 0 ∨
     (computeCrop ⟨200, 200, 50, 50⟩ 32 32 100 100).height ≤ 0) ∧
    (createBlurRegion ⟨200, 200, 50, 50⟩ 32 32 100 100 8 = none ∧
     handleMouseUpBlur ⟨200, 200, 50, 50⟩ 100 100 32 32 8
         ⟨[Obj.shape 7], [], -1, false⟩
       = { (⟨[Obj.shape 7], [], -1, false⟩ : CanvasState) with
           objects :=
             (⟨[Obj.shape 7], [], -1, false⟩ : CanvasState).objects.dropLast }) :=
  ⟨by norm_num [computeCrop],
   createBlurRegion_no_overlap ⟨200, 200, 50, 50⟩ 32 32 100 100 8
     ⟨[Obj.shape 7], [], -1, false⟩ (by norm_num [computeCrop])⟩

/-- Claim C7: a blur gesture whose drawn rectangle has width or height
below 5 scene pixels is discarded silently before the crop or any pixel
extraction is computed: the temporary rectangle (the most recently added
object) is removed, no blur object is added, and the history log and
cursor are untouched. -/
theorem handleMouseUpBlur_min_size (rect : Bounds)
    (imgWidth imgHeight offsetLeft offsetTop blockSize : ℚ) (s : CanvasState)
    (hsmall : rect.width < 5 ∨ rect.height < 5) :
    handleMouseUpBlur rect imgWidth imgHeight offsetLeft offsetTop blockSize s
      = { s with objects := s.objects.dropLast } := by
  unfold handleMouseUpBlur
  rw [if_pos hsmall]

theorem handleMouseUpBlur_min_size_witness :
    ((⟨10, 10, 3, 40⟩ : Bounds).width < 5 ∨
     (⟨10, 10, 3, 40⟩ : Bounds).height < 5) ∧
    handleMouseUpBlur ⟨10, 10, 3, 40⟩ 800 600 32 32 8
        ⟨[Obj.shape 4], [[Obj.shape 4]], 0, false⟩
      = { (⟨[Obj.shape 4], [[Obj.shape 4]], 0, false⟩ : CanvasState) with
          objects := (⟨[Obj.shape 4], [[Obj.shape 4]], 0, false⟩ :
            CanvasState).objects.dropLast } :=
  ⟨by decide,
   handleMouseUpBlur_min_size ⟨10, 10, 3, 40⟩ 800 600 32 32 8
     ⟨[Obj.shape 4], [[Obj.shape 4]], 0, false⟩ (by decide)⟩

/-- Claim C8: finalizing an arrow discards the temporary line and builds a
group at the midpoint of the endpoints, containing a line with endpoints
relative to the center and a triangular head of fixed size 15 at the
second endpoint, rotated `atan2(dy, dx) * 180 / pi + 90` degrees; and
(when the save occurs with the cursor at the end of a non-full log outside
a restore) exactly one history entry is pushed, with the cursor advanced
by one. -/
theorem handleMouseUpArrow_spec (atan2 : ℚ → ℚ → ℚ) (piv : ℚ)
    (x1 y1 x2 y2 : ℚ) (s : CanvasState)
    (hr : s.isRestoring = false)
    (hend : s.historyIndex = (s.history.length : ℤ) - 1)
    (hlen : s.history.length < 50) :
    finalizeArrowGeom atan2 piv x1 y1 x2 y2 =
      { groupLeft := (x1 + x2) / 2, groupTop := (y1 + y2) / 2,
        lineX1 := x1 - (x1 + x2) / 2, lineY1 := y1 - (y1 + y2) / 2,
        lineX2 := x2 - (x1 + x2) / 2, lineY2 := y2 - (y1 + y2) / 2,
        headLeft := x2 - (x1 + x2) / 2, headTop := y2 - (y1 + y2) / 2,
        headWidth := 15, headHeight := 15,
        headAngle := atan2 (y2 - y1) (x2 - x1) * 180 / piv + 90 } ∧
    (handleMouseUpArrow atan2 piv x1 y1 x2 y2 true s).history
      = s.history
          ++ [s.objects.dropLast
                ++ [Obj.arrowGroup (finalizeArrowGeom atan2 piv x1 y1 x2 y2)]] ∧
    (handleMouseUpArrow atan2 piv x1 y1 x2 y2 true s).historyIndex
      = s.historyIndex + 1 := by
  have key : handleMouseUpArrow atan2 piv x1 y1 x2 y2 true s
      = { s with
          objects := s.objects.dropLast
              ++ [Obj.arrowGroup (finalizeArrowGeom atan2 piv x1 y1 x2 y2)],
          history := s.history
              ++ [s.objects.dropLast
                    ++ [Obj.arrowGroup (finalizeArrowGeom atan2 piv x1 y1 x2 y2)]],
          historyIndex := s.historyIndex + 1 } := by
    show saveToHistory
        { s with objects := s.objects.dropLast
            ++ [Obj.arrowGroup (finalizeArrowGeom atan2 piv x1 y1 x2 y2)] } = _
    have htr : truncatedHistory
        { s with objects := s.objects.dropLast
            ++ [Obj.arrowGroup (finalizeArrowGeom atan2 piv x1 y1 x2 y2)] }
        = s.history := by
      unfold truncatedHistory
      rw [if_neg (show ¬(s.historyIndex < (s.history.length : ℤ) - 1) by omega)]
    unfold saveToHistory
    rw [if_neg (show ¬(s.isRestoring = true) by simp [hr])]
    rw [htr]
    rw [if_neg (show ¬((s.history ++ [s.objects.dropLast
        ++ [Obj.arrowGroup (finalizeArrowGeom atan2 piv x1 y1 x2 y2)]]).length
          > maxHistorySize) by
      simp only [maxHistorySize, List.length_append, List.length_cons,
        List.length_nil, gt_iff_lt, not_lt]
      omega)]
  exact ⟨rfl, by rw [key], by rw [key]⟩

theorem handleMouseUpArrow_spec_witness :
    initialState.isRestoring = false ∧
    initialState.historyIndex = (initialState.history.length : ℤ) - 1 ∧
    initialState.history.length < 50 ∧
    finalizeArrowGeom (fun _ _ => 0) 1 0 0 2 2 =
      { groupLeft := ((0 : ℚ) + 2) / 2, groupTop := ((0 : ℚ) + 2) / 2,
        lineX1 := 0 - ((0 : ℚ) + 2) / 2, lineY1 := 0 - ((0 : ℚ) + 2) / 2,
        lineX2 := 2 - ((0 : ℚ) + 2) / 2, lineY2 := 2 - ((0 : ℚ) + 2) / 2,
        headLeft := 2 - ((0 : ℚ) + 2) / 2, headTop := 2 - ((0 : ℚ) + 2) / 2,
        headWidth := 15, headHeight := 15,
        headAngle := (fun (_ _ : ℚ) => (0 : ℚ)) (2 - 0) (2 - 0) * 180 / 1 + 90 } :=
  ⟨rfl, by decide, by decide,
   (handleMouseUpArrow_spec (fun _ _ => 0) 1 0 0 2 2 initialState rfl
      (by decide) (by decide)).1⟩

/-- Claim C9: for every two-stop linear gradient descriptor the resolver
computes `angleRad = (angle - 90) * pi / 180` and the start and end points
`(0.5 - cos * 0.5, 0.5 - sin * 0.5)` and `(0.5 + cos * 0.5, 0.5 + sin * 0.5)`
scaled by `(width, height)`; consequently (using the values of the host
sine and cosine at the two relevant angles) angle 0 yields a vertical
gradient with `y1 > y2` and angle 90 yields `x1 < x2`; and any input not
matching the two-stop linear form yields no gradient rather than an
error. -/
theorem parseGradient_spec {K : Type} [LinearOrderedField K]
    (cosf sinf : K → K) (piv : K) (width height : K)
    (c1 c2 : String) (p1 p2 : ℕ) (raw : String)
    (hw : 0 < width) (hh : 0 < height)
    (hs0 : sinf ((((0 : ℕ) : K) - 90) * piv / 180) = -1)
    (hc90 : cosf ((((90 : ℕ) : K) - 90) * piv / 180) = 1) :
    (∀ a : ℕ,
      parseGradient cosf sinf piv (CssInput.linearGradient a c1 p1 c2 p2)
          width height =
        some { coords :=
                 { x1 := (1 / 2 - cosf (((a : K) - 90) * piv / 180) * (1 / 2))
                           * width,
                   y1 := (1 / 2 - sinf (((a : K) - 90) * piv / 180) * (1 / 2))
                           * height,
                   x2 := (1 / 2 + cosf (((a : K) - 90) * piv / 180) * (1 / 2))
                           * width,
                   y2 := (1 / 2 + sinf (((a : K) - 90) * piv / 180) * (1 / 2))
                           * height },
               colorStops := [(0, c1), (1, c2)] }) ∧
    (∃ g, parseGradient cosf sinf piv (CssInput.linearGradient 0 c1 p1 c2 p2)
        width height = some g ∧ g.coords.y2 < g.coords.y1) ∧
    (∃ g, parseGradient cosf sinf piv (CssInput.linearGradient 90 c1 p1 c2 p2)
        width height = some g ∧ g.coords.x1 < g.coords.x2) ∧
    parseGradient cosf sinf piv (CssInput.other raw) width height = none := by
  refine ⟨fun a => rfl, ⟨_, rfl, ?_⟩, ⟨_, rfl, ?_⟩, rfl⟩
  · show (1 / 2 + sinf ((((0 : ℕ) : K) - 90) * piv / 180) * (1 / 2)) * height
        < (1 / 2 - sinf ((((0 : ℕ) : K) - 90) * piv / 180) * (1 / 2)) * height
    rw [hs0]
    nlinarith [hh]
  · show (1 / 2 - cosf ((((90 : ℕ) : K) - 90) * piv / 180) * (1 / 2)) * width
        < (1 / 2 + cosf ((((90 : ℕ) : K) - 90) * piv / 180) * (1 / 2)) * width
    rw [hc90]
    nlinarith [hw]

theorem parseGradient_spec_witness :
    ((0 : ℚ) < 3 ∧ (0 : ℚ) < 5 ∧
     (fun x : ℚ => x) ((((0 : ℕ) : ℚ) - 90) * 2 / 180) = -1 ∧
     (fun x : ℚ => x + 1) ((((90 : ℕ) : ℚ) - 90) * 2 / 180) = 1) ∧
    parseGradient (fun x : ℚ => x + 1) (fun x : ℚ => x) 2
        (CssInput.other "solid") 3 5 = none :=
  ⟨⟨by norm_num, by norm_num, by norm_num, by norm_num⟩,
   (parseGradient_spec (K := ℚ) (fun x => x + 1) (fun x => x) 2 3 5
      "red" "blue" 30 70 "solid"
      (by norm_num) (by norm_num) (by norm_num) (by norm_num)).2.2.2⟩

/-- Claim C10: the gradient resolver ignores the stop percentages captured
by the match. For every linear descriptor with any non-negative integer
percentages, parsing succeeds, the color stops are always at offsets 0
and 1, and the result is identical to the result for the same descriptor
with stops at 0 percent and 100 percent. -/
theorem parseGradient_ignores_stop_percentages {K : Type} [Field K]
    (cosf sinf : K → K) (piv : K) (a : ℕ) (c1 c2 : String) (p1 p2 : ℕ)
    (width height : K) :
    (∃ g, parseGradient cosf sinf piv (CssInput.linearGradient a c1 p1 c2 p2)
        width height = some g ∧ g.colorStops = [(0, c1), (1, c2)]) ∧
    parseGradient cosf sinf piv (CssInput.linearGradient a c1 p1 c2 p2)
        width height
      = parseGradient cosf sinf piv (CssInput.linearGradient a c1 0 c2 100)
          width height :=
  ⟨⟨_, rfl, rfl⟩, rfl⟩

end Snipp
